import Mathlib

/-!
Verification of the cfsRoutes delivery-routing pipeline.

This file shallowly embeds the Python sources of the repository
(`cfsroutes/convert.py`, `cfsroutes/matrix.py`, `cfsroutes/solver.py`,
`cfsroutes/routes.py`) into Lean and proves or refutes the frozen claims
about them.  Conventions used throughout:

* Python floats are embedded as real numbers (`ℝ`); the claims under
  study are algebraic (symmetry, zero rows, orderings) and do not depend
  on rounding.
* A Python value that may be `None` is an `Option`.
* Python runtime exceptions (`TypeError`, `ValueError`, `IndexError`,
  `KeyError`, `AssertionError`) are a `PyErr` in an `Except` result.
* The two external combinatorial solvers (the OR-Tools routing solve in
  `get_routes` and the SCIP MIP solve in `assign_drivers`) and the
  external geocoding HTTP call are modelled as explicit function
  parameters (oracles); everything around them is transcribed from the
  source.
* Python dictionaries keyed by strings or integers are association lists
  with Python's assignment semantics (`pyDictInsert`).
-/

/-- Python runtime exceptions that the embedded code can raise. -/
inductive PyErr where
  | typeError
  | valueError
  | indexError
  | keyError
  | assertionError
  | attributeError
deriving DecidableEq, Repr

/-- A resolved coordinate, the dict `{"lat": .., "lng": ..}` used in
`matrix.py` and `convert.py`.  Iterating `.values()` yields `(lat, lng)`. -/
structure Loc where
  lat : ℝ
  lng : ℝ

/-- One signup row (`row_data` dict built in `convert.py`): the configured
csv fields plus the keys the pipeline adds (`address`, `location`,
`full_address`, `postal`, `source_index`). -/
structure Rec where
  address : String
  location : Option Loc := none
  full_address : Option String := none
  postal : Option String := none
  source_index : Option Nat := none
  fields : List (String × String) := []

/-- A configured driver (`{"name": .., "postal": .., "location": ..}` as
built by `Converter.driver_data`). -/
structure Driver where
  name : String
  postal : Option String := none
  location : Option Loc := none

/-! ## GeoMath: `matrix.py` distance functions, over `ℝ` -/

/-- `matrix.radians`: degree-to-radian conversion. -/
noncomputable def radians (deg : ℝ) : ℝ := deg * Real.pi / 180

/-- The inner `coords` helper of `matrix.pair_euclid_distance`: project a
lat/lng pair (radians) onto a sphere of radius `R`. -/
noncomputable def coords3 (lat lng R : ℝ) : ℝ × ℝ × ℝ :=
  (R * Real.cos lat * Real.cos lng, R * Real.cos lat * Real.sin lng, R * Real.sin lat)

/-- `matrix.pair_euclid_distance`: Euclidean distance between the two
projected points, with `R = 6378137`. -/
noncomputable def pair_euclid_distance (source dest : ℝ × ℝ) : ℝ :=
  let lat1 := radians source.1
  let lng1 := radians source.2
  let lat2 := radians dest.1
  let lng2 := radians dest.2
  let R : ℝ := 6378137
  let p1 := coords3 lat1 lng1 R
  let p2 := coords3 lat2 lng2 R
  Real.sqrt ((p2.1 - p1.1) ^ 2 + (p2.2.1 - p1.2.1) ^ 2 + (p2.2.2 - p1.2.2) ^ 2)

theorem pair_euclid_distance_self (p : ℝ × ℝ) : pair_euclid_distance p p = 0 := by
  simp [pair_euclid_distance, sub_self]

theorem pair_euclid_distance_comm (p q : ℝ × ℝ) :
    pair_euclid_distance p q = pair_euclid_distance q p := by
  simp only [pair_euclid_distance, coords3]
  congr 1
  ring

/-- `matrix.distance`: `None` if either coordinate is missing, otherwise
`pair_euclid_distance` of the two `(lat, lng)` tuples. -/
noncomputable def matrix_distance (source dest : Option Loc) : Option ℝ :=
  match source, dest with
  | some s, some d => some (pair_euclid_distance (s.lat, s.lng) (d.lat, d.lng))
  | _, _ => none

/-! ## AddressNormalizer: `Converter.preprocess_address` -/

/-- Characters stripped by Python `str.strip()` and matched by `\s`. -/
def isPySpace (c : Char) : Bool :=
  c = ' ' || c = '\t' || c = '\n' || c = '\r' || c = '\x0b' || c = '\x0c'

/-- Python `str.strip()`: drop leading and trailing whitespace. -/
def pyStrip (cs : List Char) : List Char :=
  ((cs.dropWhile isPySpace).reverse.dropWhile isPySpace).reverse

/-- `.replace("\n", ", ")`. -/
def replaceNewline : List Char → List Char
  | [] => []
  | c :: rest =>
      if c = '\n' then ',' :: ' ' :: replaceNewline rest else c :: replaceNewline rest

/-- Python `str.lower()` (ASCII case folding suffices for the model). -/
def pyLower (s : String) : String := String.mk (s.data.map Char.toLower)

/-- The substitution `re.sub(r"^(#?[0-9]+)\s*\-+\s*(.*)", r"\2", address)`:
after an optional `#`, one or more digits, optional whitespace, one or more
hyphens and optional whitespace must be matched at the start; the pattern's
character classes are pairwise disjoint, so greedy matching is maximal
munch.  Returns the remainder (`\2`) on a match. -/
def matchUnitRest (cs : List Char) : Option (List Char) :=
  let digits := cs.takeWhile Char.isDigit
  if digits.isEmpty then none
  else
    let afterSpace := (cs.dropWhile Char.isDigit).dropWhile isPySpace
    let hyphens := afterSpace.takeWhile (· = '-')
    if hyphens.isEmpty then none
    else some ((afterSpace.dropWhile (· = '-')).dropWhile isPySpace)

/-- Apply the unit-number substitution, handling the optional leading `#`
(the only backtracking point of the regex, and if `#` is present the digits
must follow it, since `#` itself is not a digit). -/
def stripUnit (cs : List Char) : List Char :=
  match matchUnitRest (if cs.head? = some '#' then cs.tail else cs) with
  | some rest => rest
  | none => cs

/-- `Converter.preprocess_address`: strip, collapse newlines, replace `/`
with `-`, truncate to 50 characters, strip a leading unit number, and
append `", <city>"` unless the city already occurs (case-insensitively). -/
def preprocess_address (city : String) (address : String) : String :=
  let a1 := pyStrip address.data
  let a2 := replaceNewline a1
  let a3 := a2.map (fun c => if c = '/' then '-' else c)
  let a4 := a3.take 50
  let a5 := stripUnit a4
  let s := String.mk a5
  if (pyLower city).data <:+: (pyLower s).data then s else s ++ ", " ++ city

/-! ## GeocodeCache: `functools.cache` on `Converter.bcgov_get_location`

`@functools.cache` memoizes on the function's raw arguments, i.e. on the
raw address string; `preprocess_address` runs inside the cached body.  The
HTTP request plus JSON parsing (`requests.get` and the `try`/`except`,
which yields `None` on any failure) is the external capability `external`;
`calls` counts how many times it is invoked. -/

structure GeoCache where
  entries : List (String × Option (Loc × String)) := []
  calls : Nat := 0

/-- `Converter.bcgov_get_location` together with its `functools.cache`
wrapper: on a cache hit return the stored result; on a miss run the body
(normalize, invoke the external geocoder) and store the result under the
raw address. -/
def bcgov_get_location (external : String → Option (Loc × String)) (city : String)
    (cache : GeoCache) (address : String) : Option (Loc × String) × GeoCache :=
  match cache.entries.find? (fun p => decide (p.1 = address)) with
  | some p => (p.2, cache)
  | none =>
      let r := external (preprocess_address city address)
      (r, ⟨cache.entries ++ [(address, r)], cache.calls + 1⟩)

/-! ## SignupValidator: `Converter.check_coordinates` -/

/-- The fallback lookup of `check_coordinates`'s `enable_filter=False`
branch: `values.postal_code_fallback.get(postal and postal.upper(),
values.default_location)`.  Modelled from the spec: the module
`cfsroutes/values.py` (the static `postal_code_fallback` table and
`default_location`) is not in the source tree, so the table and default
are passed in as data, per the spec's "static postal→coordinate table
(or a system-wide default coordinate if the postal code is
unrecognized)". -/
def fallback_location (table : List (String × Loc)) (dflt : Loc)
    (postal : Option String) : Loc :=
  match postal with
  | none => dflt
  | some p => (((table.find? (fun q => decide (q.1 = String.mk (p.data.map Char.toUpper)))).map
      (·.2)).getD dflt)

open Classical in
/-- The per-record loop of `Converter.check_coordinates` (convert.py lines
192-210), after the origin has been split off.  For each row:
`distance = matrix.distance(location, origin) if location else None`, then
`logger.info(..., int(distance))` — which raises `TypeError` when
`distance` is `None` — then the threshold test with the filter/fallback
branches. -/
noncomputable def check_rows (enableFilter : Bool) (threshold : ℝ) (origin : Loc)
    (table : List (String × Loc)) (dflt : Loc) :
    List Rec → Except PyErr (List Rec × List Rec)
  | [] => Except.ok ([], [])
  | row :: rest =>
    match row.location with
    | none => Except.error PyErr.typeError
    | some loc =>
      let d := pair_euclid_distance (loc.lat, loc.lng) (origin.lat, origin.lng)
      if d > threshold then
        if enableFilter then
          (check_rows enableFilter threshold origin table dflt rest).map
            (fun p => (p.1, row :: p.2))
        else
          let row2 := { row with location := some (fallback_location table dflt row.postal) }
          (check_rows enableFilter threshold origin table dflt rest).map
            (fun p => (row2 :: p.1, p.2))
      else
        (check_rows enableFilter threshold origin table dflt rest).map
          (fun p => (row :: p.1, p.2))

/-- `Converter.check_coordinates`: split off `data[0]` as the origin
(`IndexError` on an empty list), require its coordinate (`ValueError`
otherwise), then run the per-record loop on the remaining rows.  Note the
origin record itself is never placed into either returned list. -/
noncomputable def check_coordinates (enableFilter : Bool) (table : List (String × Loc))
    (dflt : Loc) (data : List Rec) (threshold : ℝ) :
    Except PyErr (List Rec × List Rec) :=
  match data with
  | [] => Except.error PyErr.indexError
  | origin_data :: rest =>
    match origin_data.location with
    | none => Except.error PyErr.valueError
    | some origin => check_rows enableFilter threshold origin table dflt rest

/-! ## `Converter.column_name_to_index` -/

/-- Python `k in d` on an association list. -/
def hasKey {κ ν : Type} [DecidableEq κ] (d : List (κ × ν)) (k : κ) : Bool :=
  d.any (fun p => decide (p.1 = k))

/-- Python dict assignment `d[k] = v` on an association list: overwrite an
existing binding in place, otherwise append. -/
def pyDictInsert {κ ν : Type} [DecidableEq κ] (d : List (κ × ν)) (k : κ) (v : ν) :
    List (κ × ν) :=
  if hasKey d k then
    d.map (fun p => if p.1 = k then (k, v) else p)
  else d ++ [(k, v)]

/-- `d.get(k, default)` on an association list. -/
def pyDictGet {κ ν : Type} [DecidableEq κ] (d : List (κ × ν)) (k : κ) (dflt : ν) : ν :=
  ((d.find? (fun p => decide (p.1 = k))).map (·.2)).getD dflt

/-- The match test of `column_name_to_index`: `key in title.lower()[:21]`
— the key verbatim must be a substring of the first 21 characters of the
lowercased header. -/
def codeMatch (key title : String) : Bool :=
  decide (key.data <:+: ((pyLower title).take 21).data)

/-- The inner loop of `column_name_to_index`: for one header cell at
column `i`, record the index for every configured key that matches it. -/
def scanTitle (keys : List String) (i : Nat) (title : String)
    (d : List (String × Nat)) : List (String × Nat) :=
  keys.foldl (fun d key => if codeMatch key title then pyDictInsert d key i else d) d

/-- The double loop of `column_name_to_index` over `enumerate(title_row)`. -/
def buildIndex (keys : List String) (titles : List String) : List (String × Nat) :=
  titles.enum.foldl (fun d p => scanTitle keys p.1 p.2 d) []

/-- `Converter.column_name_to_index`: build the key→column mapping, then
raise `ValueError` (`MissingColumnError` in the spec) if any configured
key is absent from it. -/
def column_name_to_index (keys : List String) (titles : List String) :
    Except PyErr (List (String × Nat)) :=
  let d := buildIndex keys titles
  if keys.any (fun k => !(hasKey d k)) then Except.error PyErr.valueError
  else Except.ok d

/-! ## DistanceMatrixBuilder: `matrix.distance_matrix` -/

/-- The comprehension `[k["location"] for k in data]`, where a missing or
`None` location makes the subsequent `.values()` iteration crash: any
absent coordinate aborts the build. -/
def getLocations : List Rec → Option (List Loc)
  | [] => some []
  | r :: rest =>
    match r.location, getLocations rest with
    | some l, some ls => some (l :: ls)
    | _, _ => none

/-- `matrix.distance_matrix`: the `N×N` matrix of pairwise
`pair_euclid_distance` values over the records' `(lat, lng)` tuples, then
a zero row appended, then a zero column appended. -/
noncomputable def distance_matrix (data : List Rec) : Option (List (List ℝ)) :=
  match getLocations data with
  | none => none
  | some locs =>
    let size := locs.length
    let base := locs.map (fun s => locs.map
      (fun d => pair_euclid_distance (s.lat, s.lng) (d.lat, d.lng)))
    let withRow := base ++ [List.replicate size 0]
    let withCol := withRow.map (fun row => row ++ [0])
    some withCol

/-- Matrix entry access with the conventions of the claims: out-of-range
reads default to `0`. -/
def entry (M : List (List ℝ)) (i j : Nat) : ℝ := (M.getD i []).getD j 0

/-! ## RouteSolver: `solver.create_data_model` and `solver.get_routes` -/

/-- The dict built by `solver.create_data_model`. -/
structure DataModel where
  dist_matrix : List (List ℝ)
  num_vehicles : Int
  starts : List Nat
  ends : List Nat
  demands : List Int
  vehicle_capacities : List Int

/-- `solver.create_data_model`: `deliveries = len(matrix) - 2` (Python
int subtraction, so this can be negative for tiny matrices),
`cars = deliveries // 6 + bool(deliveries % 6)` (Python floor division
and floor modulus, hence `Int.fdiv`/`Int.fmod`), and the demand vector
`[0] + [1] * deliveries + [0]` (Python list repetition is empty for a
non-positive count, hence `Int.toNat`). -/
noncomputable def create_data_model (m : List (List ℝ)) : DataModel :=
  let deliveries : Int := (m.length : Int) - 2
  let cars : Int := deliveries.fdiv 6 + (if deliveries.fmod 6 ≠ 0 then 1 else 0)
  { dist_matrix := m
    num_vehicles := cars
    starts := List.replicate cars.toNat 0
    ends := List.replicate cars.toNat (m.length - 1)
    demands := [0] ++ List.replicate deliveries.toNat 1 ++ [0]
    vehicle_capacities := List.replicate cars.toNat 6 }

/-- `solver.get_routes` around the external OR-Tools solve: build the data
model, check its `assert sum(demands) <= sum(capacities)`
(`AssertionError` if it fails), then hand over to the solver.
`solverOutcome` stands for `routing.SolveWithParameters` combined with the
path extraction of `get_solution`: `some paths` when a solution was found,
`none` when not.  In the `None` case the code logs
`"get_routes failed"` and returns `None` — no exception is raised. -/
noncomputable def get_routes_model (m : List (List ℝ))
    (solverOutcome : Option (List (List Nat))) :
    Except PyErr (Option (List (List Nat))) :=
  let data := create_data_model m
  if data.demands.sum ≤ data.vehicle_capacities.sum then
    match solverOutcome with
    | some paths => Except.ok (some paths)
    | none => Except.ok none
  else Except.error PyErr.assertionError

/-! ## DriverAssigner: `solver.assign_drivers` -/

/-- One element of the `route_ends` list: `{"index": path[-1],
"location": data[path[-1]].get("location")}`. -/
structure RouteEnd where
  index : Nat
  location : Option Loc

/-- The `route_ends` comprehension: `path[-1]` raises `IndexError` on an
empty path, `data[path[-1]]` raises `IndexError` when out of range. -/
def routeEnds (data : List Rec) : List (List Nat) → Except PyErr (List RouteEnd)
  | [] => Except.ok []
  | p :: rest =>
    match p.getLast? with
    | none => Except.error PyErr.indexError
    | some idx =>
      match data[idx]? with
      | none => Except.error PyErr.indexError
      | some r => (routeEnds data rest).map (fun es => ⟨idx, r.location⟩ :: es)

/-- `assign_cost`: `1` when either location is missing, otherwise the
projected distance between them. -/
noncomputable def assign_cost (source dest : Option Loc) : ℝ :=
  match source, dest with
  | some s, some d => pair_euclid_distance (s.lat, s.lng) (d.lat, d.lng)
  | _, _ => 1

/-- The assignment-extraction double loop of `assign_drivers` (lines
195-202): `assignments[i] = drivers[j]["name"]` for every `x[i, j]` set in
the solution. -/
def buildAssignments (ends : List RouteEnd) (drivers : List Driver)
    (x : Nat → Nat → Bool) : List (Nat × String) :=
  (List.range ends.length).foldl (fun acc i =>
    (List.range drivers.length).foldl (fun acc j =>
      if x i j then pyDictInsert acc i (((drivers[j]?).map (·.name)).getD "") else acc) acc) []

/-- The post-solve branch of `assign_drivers`: if the solver status is
neither `OPTIMAL` nor `FEASIBLE` (`sol = none`), log a warning and return
the empty assignment; otherwise read off the solution values. -/
def afterSolve (ends : List RouteEnd) (drivers : List Driver)
    (sol : Option (Nat → Nat → Bool)) : List (Nat × String) :=
  match sol with
  | none => []
  | some x => buildAssignments ends drivers x

/-- `solver.assign_drivers`, with the SCIP MIP solve abstracted as the
oracle `mip` (fed the cost matrix; `some x` = an optimal/feasible 0-1
solution, `none` = any other status).  The second component records
whether the solver was invoked at all.  With no drivers the function
returns `{}` before touching `paths` or any solver; with `paths = None`
(the `get_routes` failure value) the `route_ends` comprehension raises
`TypeError`. -/
noncomputable def assign_drivers_model (data : List Rec)
    (paths : Option (List (List Nat))) (drivers : List Driver)
    (mip : List (List ℝ) → Option (Nat → Nat → Bool)) :
    Except PyErr (List (Nat × String)) × Bool :=
  if drivers.isEmpty then (Except.ok [], false)
  else
    match paths with
    | none => (Except.error PyErr.typeError, false)
    | some ps =>
      match routeEnds data ps with
      | Except.error e => (Except.error e, false)
      | Except.ok ends =>
        let costs := ends.map (fun re => drivers.map (fun dr => assign_cost dr.location re.location))
        (Except.ok (afterSolve ends drivers (mip costs)), true)

/-- The constraint system formulated by `assign_drivers` (lines 167-179)
over `R` routes (`num_destinations`) and `D` drivers, with the 0-1
variables as a Boolean matrix: each route receives at most one driver
(`Σ_j x[i,j] <= 1`) and each driver is assigned to exactly one route
(`Σ_i x[i,j] == 1`), sums of 0-1 variables written as filter
cardinalities. -/
def FeasibleAssign (R D : Nat) : Prop :=
  ∃ x : Fin R → Fin D → Bool,
    (∀ i : Fin R, (Finset.univ.filter (fun j => x i j = true)).card ≤ 1) ∧
    (∀ j : Fin D, (Finset.univ.filter (fun i => x i j = true)).card = 1)

instance (R D : Nat) : Decidable (FeasibleAssign R D) := by
  unfold FeasibleAssign
  infer_instance

/-! ## Pipeline tail: `routes.slips_list` and `routes.get_slips` -/

/-- One delivery row of a slip: `[data[i][k] for k in self.csv_keys]`,
where a missing field key raises `KeyError`. -/
def slipRow (keys : List String) (r : Rec) : Except PyErr (List String) :=
  keys.mapM (fun k =>
    match r.fields.find? (fun p => decide (p.1 = k)) with
    | some p => Except.ok p.2
    | none => Except.error PyErr.keyError)

/-- The inner loop of `slips_list` over one path: skip node `0` (the
origin), index into `data` (`IndexError` out of range), and emit one row
per remaining node.  The virtual terminal node `len(data)` is out of
range for `data`, so paths are expected to carry real node indices. -/
def slipsForPath (keys : List String) (data : List Rec) :
    List Nat → Except PyErr (List (List String))
  | [] => Except.ok []
  | i :: rest =>
    if i = 0 then slipsForPath keys data rest
    else
      match data[i]? with
      | none => Except.error PyErr.indexError
      | some r => do
        let row ← slipRow keys r
        let tail ← slipsForPath keys data rest
        Except.ok (row :: tail)

/-- The outer loop of `slips_list` over `enumerate(paths)`: a
`"DRIVER: <name or blank>"` line, the header rows, the delivery rows, a
separator row. -/
def slipsBody (keys : List String) (hdr : List String) (data : List Rec)
    (assignment : List (Nat × String)) : Nat → List (List Nat) →
    Except PyErr (List (List String))
  | _, [] => Except.ok []
  | n, p :: rest => do
    let body ← slipsForPath keys data p
    let tail ← slipsBody keys hdr data assignment (n + 1) rest
    Except.ok ([["DRIVER: " ++ pyDictGet assignment n ""]]
      ++ (if hdr.isEmpty then [] else [hdr]) ++ body ++ [[" "]] ++ tail)

/-- `Routes.slips_list`: `self.slips_header or []` wrapped into a single
header row when it is a row of strings; iterating `enumerate(paths)`
raises `TypeError` when `paths` is `None` (the `get_routes` failure
value). -/
def slips_list (keys : List String) (slips_header : List String)
    (paths : Option (List (List Nat))) (data : List Rec)
    (assignment : List (Nat × String)) : Except PyErr (List (List String)) :=
  match paths with
  | none => Except.error PyErr.typeError
  | some ps => slipsBody keys slips_header data assignment 0 ps

/-- The tail of `Routes.get_slips` after `load_signups` and
`matrix.distance_matrix`: `paths = solver.get_routes(distance_matrix)`,
`assignment = solver.assign_drivers(data, paths, self.drivers)`,
`slips = self.slips_list(paths, data, assignment)`.  The two external
solves are the oracles `solverOutcome` and `mip`. -/
noncomputable def get_slips_from_matrix (keys : List String) (hdr : List String)
    (data : List Rec) (drivers : List Driver) (m : List (List ℝ))
    (solverOutcome : Option (List (List Nat)))
    (mip : List (List ℝ) → Option (Nat → Nat → Bool)) :
    Except PyErr (List (List String)) :=
  match get_routes_model m solverOutcome with
  | Except.error e => Except.error e
  | Except.ok pathsOpt =>
    match (assign_drivers_model data pathsOpt drivers mip).1 with
    | Except.error e => Except.error e
    | Except.ok assignment => slips_list keys hdr pathsOpt data assignment

/-! ## Arithmetic helpers for the data model -/

theorem fdiv_ofNat6 (a : Nat) : Int.fdiv (a : Int) 6 = ((a / 6 : Nat) : Int) := by
  rw [Int.fdiv_eq_ediv _ (by norm_num)]
  norm_cast

theorem fmod_ofNat6 (a : Nat) : Int.fmod (a : Int) 6 = ((a % 6 : Nat) : Int) := by
  rw [Int.fmod_eq_emod _ (by norm_num)]
  norm_cast

/-- The `assert sum(data["demands"]) <= sum(capacities)` inside
`create_data_model` holds for every input matrix. -/
theorem create_data_model_assert (m : List (List ℝ)) :
    (create_data_model m).demands.sum ≤ (create_data_model m).vehicle_capacities.sum := by
  simp only [create_data_model, List.sum_append, List.sum_cons, List.sum_nil,
    List.sum_replicate, nsmul_eq_mul, mul_one]
  rcases m with _ | ⟨r, m⟩
  · simp
  rcases m with _ | ⟨r2, m⟩
  · simp
  · simp only [List.length_cons]
    have h2 : ((m.length + 1 + 1 : Nat) : Int) - 2 = (m.length : Int) := by push_cast; ring
    simp only [h2]
    rw [fdiv_ofNat6 m.length, fmod_ofNat6 m.length]
    by_cases h : m.length % 6 = 0
    · simp [h]
      omega
    · have hne : ((m.length % 6 : Nat) : Int) ≠ 0 := by exact_mod_cast h
      rw [if_pos hne]
      omega

/-- C10: For every input distance matrix, the capacity precondition
assertion inside `create_data_model` — sum of demands at most sum of
vehicle capacities — holds, so the `assert` can never fire: the vehicle
count is the ceiling of the delivery count divided by the capacity 6. -/
theorem claim_C10 (m : List (List ℝ)) :
    (create_data_model m).demands.sum ≤ (create_data_model m).vehicle_capacities.sum :=
  create_data_model_assert m

/-- C9: For every record list, path value and assignment-solver oracle,
`assign_drivers` with an empty driver list returns the empty assignment
immediately, without invoking any solver and without raising an error. -/
theorem claim_C9 (data : List Rec) (paths : Option (List (List Nat)))
    (mip : List (List ℝ) → Option (Nat → Nat → Bool)) :
    assign_drivers_model data paths [] mip = (Except.ok [], false) := by
  simp [assign_drivers_model]

/-! ## Demand-vector helpers -/

theorem replicate_append_zero_getD (k : Nat) :
    (List.replicate k (1 : Int) ++ [0]).getD k 0 = 0 := by
  induction k with
  | zero => rfl
  | succ k ih => simpa [List.replicate_succ] using ih

theorem replicate_getD_lt (k j : Nat) (h : j < k) :
    (List.replicate k (1 : Int)).getD j 0 = 1 := by
  induction k generalizing j with
  | zero => omega
  | succ k ih =>
    cases j with
    | zero => simp [List.replicate_succ]
    | succ j => simpa [List.replicate_succ] using ih j (by omega)

/-- C8: For every distance matrix of size `N + 1` (per the data model
`N ≥ 1`: the record list always starts with the origin, so the matrix has
at least two rows), `create_data_model` derives a demand vector of length
`N + 1` with `0` at the first and last positions and `1` elsewhere, and
`vehicleCount = ceil(deliveryCount / 6)` with
`deliveryCount = N - 1 = len(matrix) - 2`.  Instantiated at a 15×15
matrix (13 deliveries) this gives 3 vehicles and a demand vector of
length 15 with 13 ones. -/
theorem claim_C8 (m : List (List ℝ)) (h : 2 ≤ m.length) :
    (create_data_model m).demands.length = m.length ∧
    (create_data_model m).demands.getD 0 0 = 0 ∧
    (create_data_model m).demands.getD (m.length - 1) 0 = 0 ∧
    (∀ i, 0 < i → i < m.length - 1 → (create_data_model m).demands.getD i 0 = 1) ∧
    (create_data_model m).num_vehicles = (((m.length - 2 + 5) / 6 : Nat) : Int) := by
  obtain ⟨k, hk⟩ : ∃ k, m.length = k + 2 := ⟨m.length - 2, by omega⟩
  have hdel : ((m.length : Int) - 2) = (k : Int) := by rw [hk]; push_cast; ring
  have hdem : (create_data_model m).demands = [0] ++ List.replicate k (1 : Int) ++ [0] := by
    simp only [create_data_model, hdel, Int.toNat_natCast]
  have hveh : (create_data_model m).num_vehicles
      = Int.fdiv (k : Int) 6 + (if Int.fmod (k : Int) 6 ≠ 0 then 1 else 0) := by
    simp only [create_data_model, hdel]
  rw [hdem, hveh, hk]
  refine ⟨?_, rfl, ?_, ?_, ?_⟩
  · simp
  · show (0 :: (List.replicate k (1 : Int) ++ [0])).getD (k + 2 - 1) 0 = 0
    have hx : k + 2 - 1 = k + 1 := rfl
    rw [hx, List.getD_cons_succ]
    exact replicate_append_zero_getD k
  · intro i h0 hlt
    obtain ⟨j, rfl⟩ : ∃ j, i = j + 1 := ⟨i - 1, by omega⟩
    show (0 :: (List.replicate k (1 : Int) ++ [0])).getD (j + 1) 0 = 1
    rw [List.getD_cons_succ, List.getD_append _ _ _ _ (by simp; omega)]
    exact replicate_getD_lt k j (by omega)
  · rw [fdiv_ofNat6 k, fmod_ofNat6 k]
    have hx : k + 2 - 2 = k := rfl
    rw [hx]
    by_cases h6 : k % 6 = 0
    · have hz : ((k % 6 : Nat) : Int) = 0 := by exact_mod_cast h6
      rw [hz]
      simp only [ne_eq, not_true_eq_false, if_neg, not_not]
      push_cast
      omega
    · have hne : ((k % 6 : Nat) : Int) ≠ 0 := by exact_mod_cast h6
      rw [if_pos hne]
      push_cast
      omega

/-- Witness for C8 at the spec's scenario: a 15×15 matrix, i.e. 13
deliveries, where the demand vector has length 15 and
`vehicleCount = (13 + 5) / 6 = 3`. -/
theorem claim_C8_witness :
    2 ≤ (List.replicate 15 (List.replicate 15 (0 : ℝ))).length ∧
    ((create_data_model (List.replicate 15 (List.replicate 15 (0 : ℝ)))).demands.length
        = (List.replicate 15 (List.replicate 15 (0 : ℝ))).length ∧
      (create_data_model (List.replicate 15 (List.replicate 15 (0 : ℝ)))).demands.getD 0 0 = 0 ∧
      (create_data_model (List.replicate 15 (List.replicate 15 (0 : ℝ)))).demands.getD
        ((List.replicate 15 (List.replicate 15 (0 : ℝ))).length - 1) 0 = 0 ∧
      (∀ i, 0 < i → i < (List.replicate 15 (List.replicate 15 (0 : ℝ))).length - 1 →
        (create_data_model (List.replicate 15 (List.replicate 15 (0 : ℝ)))).demands.getD i 0 = 1) ∧
      (create_data_model (List.replicate 15 (List.replicate 15 (0 : ℝ)))).num_vehicles
        = ((((List.replicate 15 (List.replicate 15 (0 : ℝ))).length - 2 + 5) / 6 : Nat) : Int)) :=
  ⟨by simp, claim_C8 (List.replicate 15 (List.replicate 15 (0 : ℝ))) (by simp)⟩

/-! ## Claims about `check_coordinates` -/

/-- C1 (code evaluation): on a record list whose first element is the
origin with a resolved coordinate and whose single delivery is at the
origin's own coordinate (distance `0`, within threshold), the kept list
returned by `check_coordinates` is just the delivery — the origin record
is sliced off (`origin_data, data = data[0], data[1:]`) and never placed
back, so the kept output does not start with the origin, contradicting
the origin-first ordering that `create_data_model`'s origin accounting
and `slips_list`'s skipping of node `0` rely on. -/
theorem claim_C1 :
    check_coordinates true [] ⟨0, 0⟩
      [{ address := "Depot", location := some ⟨48, -123⟩ },
       { address := "A St", location := some ⟨48, -123⟩ }] 10000
      = Except.ok ([{ address := "A St", location := some ⟨48, -123⟩ }], []) ∧
    ({ address := "A St", location := some ⟨48, -123⟩ } : Rec).address ≠
      ({ address := "Depot", location := some ⟨48, -123⟩ } : Rec).address := by
  constructor
  · have h0 : pair_euclid_distance ((48 : ℝ), (-123 : ℝ)) ((48 : ℝ), (-123 : ℝ)) = 0 :=
      pair_euclid_distance_self _
    simp [check_coordinates, check_rows, h0, (by norm_num : ¬ ((0 : ℝ) > 10000)),
      Except.map]
  · decide

/-- C2 (code evaluation): with `enable_filter=true`, an origin with a
resolved coordinate and a non-origin record whose coordinate is absent,
`check_coordinates` raises `TypeError` instead of filtering the record:
the logging call `logger.info(..., int(distance))` evaluates `int(None)`
before the `distance is None` branch that was written to handle exactly
this case can run. -/
theorem claim_C2 :
    check_coordinates true [] ⟨0, 0⟩
      [{ address := "Depot", location := some ⟨48, -123⟩ },
       { address := "B St" }] 10000 = Except.error PyErr.typeError := by
  rfl

/-! ## Claims about `get_routes` failure propagation -/

/-- C3 counterexample: when the routing solver finds no solution
(`solverOutcome = none`), `get_routes` does not fail with any error — it
returns the non-error value `None` (`Except.ok none`) — and the
downstream `get_slips` stages consume that value and crash with a
`TypeError` (here with a nonempty driver list, inside `assign_drivers`'s
`route_ends` comprehension), not with a `NoFeasibleSolutionError`. -/
theorem claim_C3_counterexample :
    get_routes_model [[0, 0], [0, 0]] none = Except.ok none ∧
    get_slips_from_matrix [] [] [] [{ name := "Dana" }] [[0, 0], [0, 0]] none (fun _ => none)
      = Except.error PyErr.typeError := by
  constructor <;> rfl

/-- C3 amended: when the route solver finds no solution within the time
budget, `get_routes` logs an error and returns `None` — a non-error value
— rather than raising; `get_slips` then hands that `None` to
`assign_drivers` and `slips_list`, which raise `TypeError` when they
iterate it (with an empty driver list `assign_drivers` still returns an
empty mapping and `slips_list` raises instead).  No routes are emitted,
but the abort happens via an unintended downstream `TypeError`, not via a
`NoFeasibleSolutionError` from `get_routes`. -/
theorem claim_C3 (keys hdr : List String) (data : List Rec) (drivers : List Driver)
    (m : List (List ℝ)) (mip : List (List ℝ) → Option (Nat → Nat → Bool)) :
    get_routes_model m none = Except.ok none ∧
    get_slips_from_matrix keys hdr data drivers m none mip = Except.error PyErr.typeError := by
  have h1 : get_routes_model m none = Except.ok none := by
    simp only [get_routes_model]
    rw [if_pos (create_data_model_assert m)]
  refine ⟨h1, ?_⟩
  simp only [get_slips_from_matrix, h1]
  by_cases hd : drivers.isEmpty
  · simp [assign_drivers_model, hd, slips_list]
  · simp [assign_drivers_model, hd]

/-! ## Claims about geocode memoization -/

/-- C4 counterexample: the raw addresses `"123 Main St "` and
`"123 Main St"` normalize to the same string, yet looking the second up
after the first leaves the cache with two external invocations — the
`functools.cache` key is the raw address, not the normalized one, so the
second lookup re-invokes the external geocoder. -/
theorem claim_C4_counterexample :
    preprocess_address "Victoria" "123 Main St " = preprocess_address "Victoria" "123 Main St" ∧
    "123 Main St " ≠ "123 Main St" ∧
    ((bcgov_get_location (fun _ => none) "Victoria"
        ((bcgov_get_location (fun _ => none) "Victoria" ⟨[], 0⟩ "123 Main St ").2)
        "123 Main St").2).calls = 2 := by
  refine ⟨by decide, by decide, by decide⟩

/-- C4 amended: geocode memoization is keyed by the raw address string —
a repeated lookup with the identical raw address returns the cached
result without re-invoking the external capability (result and cache
state, including the invocation count, unchanged); raw addresses that
differ, even when they normalize to the same string, each invoke the
capability. -/
theorem claim_C4 (external : String → Option (Loc × String)) (city : String)
    (cache : GeoCache) (address : String) :
    bcgov_get_location external city
        ((bcgov_get_location external city cache address).2) address
      = ((bcgov_get_location external city cache address).1,
         (bcgov_get_location external city cache address).2) := by
  unfold bcgov_get_location
  cases hfind : cache.entries.find? (fun p => decide (p.1 = address)) with
  | some p => simp [hfind]
  | none => simp [hfind, List.find?_append]

/-! ## Claims about the driver-assignment constraint system -/

/-- C5 counterexample: with 1 route and 2 drivers (a nonzero driver
count), the constraint system formulated by `assign_drivers` — each route
at most one driver, each driver exactly one route — is infeasible, so
feasibility does not hold for every route count and nonzero driver
count. -/
theorem claim_C5_counterexample : (0 < 2) ∧ ¬ FeasibleAssign 1 2 := by decide

/-- C5 amended: the constraint system formulated by `assign_drivers` is
feasible exactly when the number of drivers does not exceed the number of
routes; with more drivers than routes it is infeasible (each driver needs
its own route).  And when the solver reports anything other than an
optimal/feasible solution, `assign_drivers` returns the empty assignment
rather than failing the pipeline. -/
theorem claim_C5 (R D : Nat) (ends : List RouteEnd) (drivers : List Driver) :
    (FeasibleAssign R D ↔ D ≤ R) ∧ afterSolve ends drivers none = [] := by
  constructor
  · constructor
    · rintro ⟨x, hR, hD⟩
      have hf : ∀ j : Fin D, ∃ i : Fin R, x i j = true ∧ ∀ i2 : Fin R, x i2 j = true → i2 = i := by
        intro j
        obtain ⟨a, ha⟩ := Finset.card_eq_one.mp (hD j)
        refine ⟨a, ?_, ?_⟩
        · have hm : a ∈ Finset.univ.filter (fun i => x i j = true) :=
            ha ▸ Finset.mem_singleton_self a
          simpa using hm
        · intro i2 hi2
          have hm : i2 ∈ Finset.univ.filter (fun i => x i j = true) := by simp [hi2]
          rw [ha] at hm
          simpa using hm
      choose f hx hu using hf
      have hinj : Function.Injective f := by
        intro j1 j2 heq
        have h1 : x (f j1) j1 = true := hx j1
        have h2 : x (f j1) j2 = true := by rw [heq]; exact hx j2
        have hj1 : j1 ∈ Finset.univ.filter (fun j => x (f j1) j = true) := by simp [h1]
        have hj2 : j2 ∈ Finset.univ.filter (fun j => x (f j1) j = true) := by simp [h2]
        exact Finset.card_le_one.mp (hR (f j1)) j1 hj1 j2 hj2
      simpa using Fintype.card_le_of_injective f hinj
    · intro h
      refine ⟨fun i j => decide (i.val = j.val), ?_, ?_⟩
      · intro i
        apply Finset.card_le_one.mpr
        intro a ha b hb
        simp only [Finset.mem_filter, Finset.mem_univ, true_and, decide_eq_true_eq] at ha hb
        exact Fin.ext (by omega)
      · intro j
        rw [Finset.card_eq_one]
        refine ⟨⟨j.val, lt_of_lt_of_le j.isLt h⟩, ?_⟩
        ext i
        simp [Fin.ext_iff]
  · rfl

/-! ## Claims about `column_name_to_index` -/

/-- The matching relation the spec sentence asserts: case-insensitive
substring match of the key in the first 21 characters of the header. -/
def ciMatch (key title : String) : Bool :=
  decide ((pyLower key).data <:+: (pyLower (title.take 21)).data)

/-- `exceptOk`: did the embedded call return normally? -/
def exceptOk {α : Type} : Except PyErr α → Bool
  | Except.ok _ => true
  | Except.error _ => false

theorem hasKey_map_overwrite (d : List (String × Nat)) (k k2 : String) (v : Nat) :
    hasKey (d.map (fun p => if p.1 = k then (k, v) else p)) k2 = hasKey d k2 := by
  induction d with
  | nil => rfl
  | cons p d ih =>
    simp only [List.map_cons, hasKey, List.any_cons] at *
    rw [ih]
    by_cases hp : p.1 = k
    · rw [if_pos hp]
      simp [hp]
    · rw [if_neg hp]

theorem hasKey_pyDictInsert (d : List (String × Nat)) (k k2 : String) (v : Nat) :
    hasKey (pyDictInsert d k v) k2 = (hasKey d k2 || decide (k2 = k)) := by
  unfold pyDictInsert
  by_cases h : hasKey d k
  · rw [if_pos h, hasKey_map_overwrite]
    by_cases hk : k2 = k
    · subst hk
      simp [h]
    · simp [hk]
  · rw [if_neg h]
    simp only [hasKey, List.any_append, List.any_cons, List.any_nil, Bool.or_false]
    have hcomm : (decide (k = k2) : Bool) = decide (k2 = k) := by
      simp [eq_comm]
    rw [hcomm]

theorem hasKey_scanTitle (keys : List String) (i : Nat) (t : String)
    (d : List (String × Nat)) (k : String) :
    hasKey (scanTitle keys i t d) k = true ↔
      (hasKey d k = true ∨ (k ∈ keys ∧ codeMatch k t = true)) := by
  induction keys generalizing d with
  | nil => simp [scanTitle]
  | cons key keys ih =>
    have hstep : scanTitle (key :: keys) i t d
        = scanTitle keys i t (if codeMatch key t then pyDictInsert d key i else d) := by
      simp [scanTitle]
    rw [hstep, ih]
    by_cases hm : codeMatch key t
    · rw [if_pos hm, hasKey_pyDictInsert]
      simp only [Bool.or_eq_true, decide_eq_true_eq, List.mem_cons]
      constructor
      · rintro ((h | rfl) | h)
        · exact Or.inl h
        · exact Or.inr ⟨Or.inl rfl, hm⟩
        · exact Or.inr ⟨Or.inr h.1, h.2⟩
      · rintro (h | ⟨(rfl | hmem), hmt⟩)
        · exact Or.inl (Or.inl h)
        · exact Or.inl (Or.inr rfl)
        · exact Or.inr ⟨hmem, hmt⟩
    · rw [if_neg hm]
      simp only [List.mem_cons]
      constructor
      · rintro (h | h)
        · exact Or.inl h
        · exact Or.inr ⟨Or.inr h.1, h.2⟩
      · rintro (h | ⟨(rfl | hmem), hmt⟩)
        · exact Or.inl h
        · exact absurd hmt hm
        · exact Or.inr ⟨hmem, hmt⟩

theorem hasKey_buildFold (keys : List String) (L : List (Nat × String))
    (d : List (String × Nat)) (k : String) :
    hasKey (L.foldl (fun d p => scanTitle keys p.1 p.2 d) d) k = true ↔
      (hasKey d k = true ∨ (k ∈ keys ∧ ∃ p ∈ L, codeMatch k p.2 = true)) := by
  induction L generalizing d with
  | nil => simp
  | cons p L ih =>
    rw [List.foldl_cons, ih, hasKey_scanTitle]
    simp only [List.mem_cons]
    constructor
    · rintro ((h | h) | ⟨hk, q, hq, hcm⟩)
      · exact Or.inl h
      · exact Or.inr ⟨h.1, p, Or.inl rfl, h.2⟩
      · exact Or.inr ⟨hk, q, Or.inr hq, hcm⟩
    · rintro (h | ⟨hk, q, (rfl | hq), hcm⟩)
      · exact Or.inl (Or.inl h)
      · exact Or.inl (Or.inr ⟨hk, hcm⟩)
      · exact Or.inr ⟨hk, q, hq, hcm⟩

theorem hasKey_buildIndex (keys titles : List String) (k : String) :
    hasKey (buildIndex keys titles) k = true ↔
      (k ∈ keys ∧ ∃ t ∈ titles, codeMatch k t = true) := by
  unfold buildIndex
  rw [hasKey_buildFold]
  simp only [hasKey, List.any_nil, Bool.false_eq_true, false_or]
  constructor
  · rintro ⟨hk, p, hp, hcm⟩
    refine ⟨hk, p.2, ?_, hcm⟩
    have := List.enum_map_snd titles
    rw [← this]
    exact List.mem_map_of_mem Prod.snd hp
  · rintro ⟨hk, t, ht, hcm⟩
    obtain ⟨p, hp, rfl⟩ : ∃ p ∈ titles.enum, p.2 = t := by
      have := List.enum_map_snd titles
      rw [← this] at ht
      exact List.mem_map.mp ht
    exact ⟨hk, p, hp, hcm⟩

set_option maxRecDepth 10000 in
/-- C6 counterexample: with the configured key `"Name"` and the header
`"Name"`, a case-insensitive substring match succeeds (`ciMatch`), yet
`column_name_to_index` raises `MissingColumnError` (`ValueError`): the
code lowercases only the header (`key in title.lower()[:21]`), never the
key, so a key containing an uppercase letter fails to match the very
header it case-insensitively occurs in. -/
theorem claim_C6_counterexample :
    column_name_to_index ["Name"] ["Name"] = Except.error PyErr.valueError ∧
    ciMatch "Name" "Name" = true := by
  exact ⟨rfl, by decide⟩

/-- C6 amended: `column_name_to_index` matches a configured key against a
header exactly when the key, verbatim, is a substring of the first 21
characters of the lowercased header (case-insensitive in the header only;
keys match case-insensitively only if they are already lowercase), and it
returns normally exactly when every configured key matches some header —
otherwise it fails with `MissingColumnError` (`ValueError`). -/
theorem claim_C6 (keys titles : List String) :
    ((∃ d, column_name_to_index keys titles = Except.ok d) ↔
      ∀ k ∈ keys, ∃ t ∈ titles, codeMatch k t = true) ∧
    ((∃ d, column_name_to_index keys titles = Except.ok d) ∨
      column_name_to_index keys titles = Except.error PyErr.valueError) := by
  by_cases h : keys.any (fun k => !(hasKey (buildIndex keys titles) k)) = true
  · have herr : column_name_to_index keys titles = Except.error PyErr.valueError := by
      unfold column_name_to_index
      rw [if_pos h]
    obtain ⟨k, hk, hnk⟩ := List.any_eq_true.mp h
    have hfalse : hasKey (buildIndex keys titles) k = false := by
      revert hnk
      cases hasKey (buildIndex keys titles) k <;> simp
    refine ⟨?_, Or.inr herr⟩
    rw [herr]
    constructor
    · rintro ⟨d, hd⟩
      exact Except.noConfusion hd
    · intro hall
      obtain ⟨t, ht, hct⟩ := hall k hk
      have htrue : hasKey (buildIndex keys titles) k = true :=
        (hasKey_buildIndex keys titles k).mpr ⟨hk, t, ht, hct⟩
      rw [hfalse] at htrue
      exact Bool.noConfusion htrue
  · have hok : column_name_to_index keys titles = Except.ok (buildIndex keys titles) := by
      unfold column_name_to_index
      rw [if_neg h]
    refine ⟨?_, Or.inl ⟨_, hok⟩⟩
    rw [hok]
    constructor
    · intro _ k hk
      have h3 : hasKey (buildIndex keys titles) k = true := by
        have h2 : ¬ (!(hasKey (buildIndex keys titles) k)) = true := fun hcon =>
          h (List.any_eq_true.mpr ⟨k, hk, hcon⟩)
        revert h2
        cases hasKey (buildIndex keys titles) k <;> simp
      obtain ⟨_, t, ht, hct⟩ := (hasKey_buildIndex keys titles k).mp h3
      exact ⟨t, ht, hct⟩
    · intro _
      exact ⟨_, rfl⟩

/-! ## Claims about `distance_matrix` -/

theorem getD_zero_of_all_zero {l : List ℝ} (h : ∀ x ∈ l, x = 0) (j : Nat) :
    l.getD j 0 = 0 := by
  induction l generalizing j with
  | nil => simp
  | cons a l ih =>
    cases j with
    | zero => simpa using h a (by simp)
    | succ j => exact ih (fun x hx => h x (by simp [hx])) j

theorem getLocations_of_resolved (data : List Rec)
    (h : ∀ r ∈ data, r.location.isSome = true) :
    ∃ locs, getLocations data = some locs ∧ locs.length = data.length := by
  induction data with
  | nil => exact ⟨[], rfl, rfl⟩
  | cons r rest ih =>
    obtain ⟨locs, hl, hlen⟩ := ih (fun x hx => h x (List.mem_cons_of_mem r hx))
    obtain ⟨l, hr⟩ := Option.isSome_iff_exists.mp (h r (List.mem_cons_self r rest))
    refine ⟨l :: locs, ?_, by simp [hlen]⟩
    simp [getLocations, hr, hl]

theorem getD_map_append_zero (l : List (List ℝ)) (i : Nat) (hi : i < l.length) :
    ((l.map (fun row => row ++ [0])).getD i []) = l.getD i [] ++ [0] := by
  rw [List.getD_eq_getElem _ _ (by simpa using hi), List.getElem_map,
    List.getD_eq_getElem _ _ hi]

theorem getD_map_get {α β : Type} (l : List α) (f : α → β) (dflt : β) (j : Nat)
    (hj : j < l.length) : (l.map f).getD j dflt = f (l.get ⟨j, hj⟩) := by
  rw [List.getD_eq_getElem _ _ (by simpa using hj), List.getElem_map, List.get_eq_getElem]

/-- The real `N×N` block of the built matrix: entry `(i, j)` is the
projected distance between records `i` and `j`. -/
theorem entry_distance_block (locs : List Loc) (i j : Nat)
    (hi : i < locs.length) (hj : j < locs.length) :
    entry ((locs.map (fun s : Loc => locs.map
          (fun d : Loc => pair_euclid_distance (s.lat, s.lng) (d.lat, d.lng)))
        ++ [List.replicate locs.length 0]).map (fun row => row ++ [0])) i j
      = pair_euclid_distance ((locs.get ⟨i, hi⟩).lat, (locs.get ⟨i, hi⟩).lng)
          ((locs.get ⟨j, hj⟩).lat, (locs.get ⟨j, hj⟩).lng) := by
  unfold entry
  have h1 : i < (locs.map (fun s : Loc => locs.map
      (fun d : Loc => pair_euclid_distance (s.lat, s.lng) (d.lat, d.lng)))
      ++ [List.replicate locs.length 0]).length := by
    simp
    omega
  rw [getD_map_append_zero _ i h1,
    List.getD_append _ _ _ i (by simpa using hi),
    getD_map_get locs _ [] i hi,
    List.getD_append _ _ _ j (by simpa using hj),
    getD_map_get locs _ 0 j hj]

/-- C7: For every record list in which every record has a resolved
coordinate, `distance_matrix` succeeds and produces an `(N+1)×(N+1)`
matrix (`N` = record count) whose final row and final column are all
zero and whose real `N×N` block has a zero diagonal and is symmetric. -/
theorem claim_C7 (data : List Rec) (h : ∀ r ∈ data, r.location.isSome = true) :
    ∃ M, distance_matrix data = some M ∧
      M.length = data.length + 1 ∧
      (∀ row ∈ M, row.length = data.length + 1) ∧
      (∀ j, entry M data.length j = 0) ∧
      (∀ i, entry M i data.length = 0) ∧
      (∀ i, i < data.length → entry M i i = 0) ∧
      (∀ i j, i < data.length → j < data.length → entry M i j = entry M j i) := by
  obtain ⟨locs, hl, hlen⟩ := getLocations_of_resolved data h
  rw [← hlen]
  refine ⟨((locs.map (fun s : Loc => locs.map
        (fun d : Loc => pair_euclid_distance (s.lat, s.lng) (d.lat, d.lng)))
      ++ [List.replicate locs.length 0]).map (fun row => row ++ [0])),
    by simp [distance_matrix, hl], by simp, ?_, ?_, ?_, ?_, ?_⟩
  · rintro row hrow
    rw [List.mem_map] at hrow
    obtain ⟨r, hr, rfl⟩ := hrow
    rcases List.mem_append.mp hr with hr | hr
    · rw [List.mem_map] at hr
      obtain ⟨s, _, rfl⟩ := hr
      simp
    · simp only [List.mem_singleton] at hr
      subst hr
      simp
  · intro j
    have hlast : (((locs.map (fun s : Loc => locs.map
          (fun d : Loc => pair_euclid_distance (s.lat, s.lng) (d.lat, d.lng)))
        ++ [List.replicate locs.length 0]).map (fun row => row ++ [0])).getD
          locs.length []) = List.replicate locs.length (0 : ℝ) ++ [0] := by
      rw [getD_map_append_zero _ locs.length (by simp),
        List.getD_append_right _ _ _ _ (by simp)]
      simp
    unfold entry
    rw [hlast]
    refine getD_zero_of_all_zero ?_ j
    intro x hx
    rcases List.mem_append.mp hx with hx | hx
    · exact (List.eq_of_mem_replicate hx)
    · simpa using hx
  · intro i
    unfold entry
    by_cases hi : i < ((locs.map (fun s : Loc => locs.map
        (fun d : Loc => pair_euclid_distance (s.lat, s.lng) (d.lat, d.lng)))
      ++ [List.replicate locs.length 0]).map (fun row => row ++ [0])).length
    · rw [List.getD_eq_getElem _ _ hi]
      have hmem := List.getElem_mem hi
      rw [List.mem_map] at hmem
      obtain ⟨r, hr, heq⟩ := hmem
      have hrl : r.length = locs.length := by
        rcases List.mem_append.mp hr with hr2 | hr2
        · rw [List.mem_map] at hr2
          obtain ⟨s, _, rfl⟩ := hr2
          simp
        · simp only [List.mem_singleton] at hr2
          subst hr2
          simp
      rw [← heq, List.getD_append_right r [0] 0 locs.length (by omega), hrl]
      simp
    · have hge : ((locs.map (fun s : Loc => locs.map
          (fun d : Loc => pair_euclid_distance (s.lat, s.lng) (d.lat, d.lng)))
        ++ [List.replicate locs.length 0]).map (fun row => row ++ [0])).getD i ([] : List ℝ)
          = [] := List.getD_eq_default _ _ (by omega)
      rw [hge]
      simp
  · intro i hi
    rw [entry_distance_block locs i i hi hi]
    exact pair_euclid_distance_self _
  · intro i j hi hj
    rw [entry_distance_block locs i j hi hj, entry_distance_block locs j i hj hi]
    exact pair_euclid_distance_comm _ _

/-- Witness for C7: a single record with a resolved coordinate yields a
2×2 matrix with the stated structure. -/
theorem claim_C7_witness :
    (∀ r ∈ [({ address := "A", location := some ⟨1, 2⟩ } : Rec)], r.location.isSome = true) ∧
    (∃ M, distance_matrix [({ address := "A", location := some ⟨1, 2⟩ } : Rec)] = some M ∧
      M.length = [({ address := "A", location := some ⟨1, 2⟩ } : Rec)].length + 1 ∧
      (∀ row ∈ M, row.length = [({ address := "A", location := some ⟨1, 2⟩ } : Rec)].length + 1) ∧
      (∀ j, entry M [({ address := "A", location := some ⟨1, 2⟩ } : Rec)].length j = 0) ∧
      (∀ i, entry M i [({ address := "A", location := some ⟨1, 2⟩ } : Rec)].length = 0) ∧
      (∀ i, i < [({ address := "A", location := some ⟨1, 2⟩ } : Rec)].length → entry M i i = 0) ∧
      (∀ i j, i < [({ address := "A", location := some ⟨1, 2⟩ } : Rec)].length →
        j < [({ address := "A", location := some ⟨1, 2⟩ } : Rec)].length →
        entry M i j = entry M j i)) :=
  ⟨by simp, claim_C7 [{ address := "A", location := some ⟨1, 2⟩ }] (by simp)⟩
